import Mathlib

/-!
Shallow embedding of the Streamlit script nexgen_job_creator_app.py and
proofs about the claims of its specification.

The script builds two prompt strings with Python f-strings, performs one
completion-service request, renders a 6-slide PDF carousel with ReportLab
into a temporary file, and serves that file as a download.  The embedding
below models the string computations of the script exactly, models the
external completion call as a function parameter, and models the ReportLab
story as a list of flowables.  A central fact is that the braces around the
JSON template inside the system-prompt f-string (source lines 113 to 121)
are parsed by Python as a replacement field whose expression is the string
literal containing linkedin_post and whose format spec is the remaining
multi-line text; that spec is not a valid string format spec, so evaluating
the f-string raises ValueError on every input (checked against CPython
semantics).
-/

namespace NexGen

/-- Python exception values that the computations of this script can raise. -/
inductive PyErr where
  | valueError (msg : String)
  | keyError (key : String)
deriving Repr, DecidableEq

/-- One segment of a Python f-string: literal text, or a replacement field.
For a replacement field we record the value of its expression (always a
string in this script) and the format-spec text standing between the colon
and the closing brace (empty when no colon is present). -/
inductive FSeg where
  | lit (s : String)
  | field (value : String) (spec : String)
deriving Repr, DecidableEq

/-- Alignment characters of the Python format-spec mini language that are
accepted for str values. -/
def isAlignChar (c : Char) : Bool :=
  c = '<' || c = '>' || c = '^'

/-- Drop the optional fill-and-align prefix of a format spec. -/
def stripFillAlign : List Char → List Char
  | c1 :: c2 :: rest =>
      if isAlignChar c2 then rest
      else if isAlignChar c1 then c2 :: rest
      else c1 :: c2 :: rest
  | [c1] => if isAlignChar c1 then [] else [c1]
  | [] => []

/-- Whether a format spec is valid for a str value: optional fill and align,
optional width digits, optional precision introduced by a dot, optional
final type letter s.  Signs, the hash flag, and grouping options are
rejected for str values, as in CPython. -/
def validStrFormatSpec (spec : String) : Bool :=
  let cs := stripFillAlign spec.data
  let cs1 := cs.dropWhile Char.isDigit
  match cs1 with
  | [] => true
  | ['s'] => true
  | '.' :: rest =>
      let ds := rest.takeWhile Char.isDigit
      let rest2 := rest.dropWhile Char.isDigit
      (!ds.isEmpty) && (rest2.isEmpty || rest2 == ['s'])
  | _ => false

/-- Formatting of one replacement field holding a str value.  The empty
spec returns the value unchanged.  A spec that is not a valid string format
spec raises ValueError, as CPython does.  The only two specs occurring in
this script are the empty spec and the invalid JSON-template spec, so the
padding performed by valid nonempty specs is irrelevant here and is not
modelled (that branch returns the value unchanged and is never taken in
this development). -/
def pyStrFormat (v spec : String) : Except PyErr String :=
  if spec = "" then .ok v
  else if validStrFormatSpec spec then .ok v
  else .error (.valueError "Invalid format specifier")

/-- Evaluation of an f-string: concatenate the segments, raising the first
formatting error. -/
def fstringEval : List FSeg → Except PyErr String
  | [] => .ok ""
  | .lit s :: rest => (fstringEval rest).map (fun r => s ++ r)
  | .field v spec :: rest =>
      match pyStrFormat v spec with
      | .error e => .error e
      | .ok fv => (fstringEval rest).map (fun r => fv ++ r)

/-- Country-conditional message computed at the start of generate_job_post
(source lines 76 to 86).  The source binds it to a local variable that no
later expression reads. -/
def why_join (country : String) : String :=
  if country = "India" then
    "Work closely with top Japanese clients, gain international exposure, and explore future opportunities to collaborate or travel to Japan."
  else
    "Opportunity to work with major Japanese enterprises, including global leaders in manufacturing and consumer services (without naming clients)."

/-- Literal text of the system-prompt f-string before the country field. -/
def sysLit1 : String :=
  "\nYou are an expert HR content creator specialising in LinkedIn job postings.\n\nYour task:\n1. Create a **high-visibility**, **viral**, **SEO-rich** LinkedIn job post.\n2. Every line MUST be **max 25 words**.\n3. Highlight the **top 4–5 required skills** clearly.\n4. Add **3–4 compelling lines** explaining why candidates should join NexGen\n   — tailored for the country: "

/-- Literal text between the country field and the role-title field. -/
def sysLit2 : String :=
  ".\n5. Include: “Know someone who fits? Tag them!”\n6. Create a **6-slide carousel outline**:\n   • Slide 1: Eye-catching title (max 25–30 words)  \n   • Slide 2: About the role  \n   • Slide 3: Key responsibilities (3–4 bullets, 10–12 words each)  \n   • Slide 4: Required skills (3–4 bullets, 10–12 words each)  \n   • Slide 5: Why join NexGen (3–4 bullets, 10–12 words each)  \n   • Slide 6: Call to action + tag someone note  \n7. If country = Japan, slides must contain **Japanese on top**, **English below**.\n8. If country = India, slides must be **English only**.\n9. Use the job title: \""

/-- Literal text between the role-title field and the client-context field. -/
def sysLit3 : String :=
  "\".\n10. Include client context subtly if provided: \""

/-- Literal text between the client-context field and the JSON-template
replacement field. -/
def sysLit4 : String :=
  "\".\n\nReturn your answer in this JSON style:\n\n"

/-- The format-spec text of the JSON-template replacement field: everything
between the first colon inside the braces (source line 114) and the closing
brace (source line 121).  It is not a valid string format spec. -/
def jsonTemplateSpec : String :=
  " \"....\",\n  \"slide1\": \"....\",\n  \"slide2\": \"....\",\n  \"slide3\": \"....\",\n  \"slide4\": \"....\",\n  \"slide5\": \"....\",\n  \"slide6\": \"....\"\n"

/-- Literal text after the JSON-template replacement field. -/
def sysLit5 : String :=
  "\n\nDo not break JSON format.\n"

/-- Segment list of the system-prompt f-string (source lines 89 to 124).
The expression of the JSON-template field is the string literal whose value
is linkedin_post; its format spec is the invalid multi-line text. -/
def system_prompt_segs (country role_title client_context : String) : List FSeg :=
  [ .lit sysLit1,
    .field country "",
    .lit sysLit2,
    .field role_title "",
    .lit sysLit3,
    .field client_context "",
    .lit sysLit4,
    .field "linkedin_post" jsonTemplateSpec,
    .lit sysLit5 ]

/-- Value of the system-prompt f-string, or the exception its evaluation
raises. -/
def system_prompt_of (country role_title client_context : String) : Except PyErr String :=
  fstringEval (system_prompt_segs country role_title client_context)

/-- Literal text of the user-prompt f-string before the jd field. -/
def userLit1 : String :=
  "\nHere is the JD to rewrite and enhance:\n\n"

/-- Literal text of the user-prompt f-string after the jd field. -/
def userLit2 : String :=
  "\n\nGenerate LinkedIn post + 6 slides now.\n"

/-- Segment list of the user-prompt f-string (source lines 126 to 132). -/
def user_prompt_segs (jd : String) : List FSeg :=
  [ .lit userLit1, .field jd "", .lit userLit2 ]

/-- Value of the user-prompt f-string, or the exception its evaluation
raises. -/
def user_prompt_of (jd : String) : Except PyErr String :=
  fstringEval (user_prompt_segs jd)

/-- Model of generate_job_post (source lines 70 to 143).  The body computes
the why_join message, evaluates the system-prompt f-string, evaluates the
user-prompt f-string, and performs one completion-service request.  The
request of lines 134 to 143, together with the extraction of the parsed
mapping from the response, crosses the external service boundary and is
abstracted as the argument call, which receives the system prompt and the
user prompt and returns the parsed JSON object as an association list (or
an exception).  The returned pair holds the Python result of the function
and the number of completion-service requests issued. -/
def generate_job_post (country role_title client_context jd : String)
    (call : String → String → Except PyErr (List (String × String))) :
    Except PyErr (List (String × String)) × Nat :=
  let why_join_value := why_join country
  match system_prompt_of country role_title client_context with
  | .error e => (.error e, 0)
  | .ok sp =>
      match user_prompt_of jd with
      | .error e => (.error e, 0)
      | .ok up => (call sp up, 1)

/-- ReportLab paragraph style parameters set by the script
(source lines 159 to 165). -/
structure ParaStyle where
  name : String
  parent : String
  fontSize : Nat
  leading : Nat
  spaceAfter : Nat
deriving Repr, DecidableEq

/-- The body style built from the Normal sample style. -/
def bodyStyle : ParaStyle :=
  { name := "body", parent := "Normal", fontSize := 22, leading := 28, spaceAfter := 20 }

/-- ReportLab flowables appended to the story.  Dimensions are in points;
the source writes them as Python float products of an inch constant, and
every value occurring here is an exact rational. -/
inductive Flowable where
  | image (path : String) (width height : Rat)
  | spacer (width height : Rat)
  | paragraph (text : String) (style : ParaStyle)
deriving Repr, DecidableEq

/-- One inch in points. -/
def inch : Rat := 72

/-- Relative path of the branding image placed on every slide
(source line 168). -/
def brand_image_path : String := "Nexgen.png"

/-- Python dict subscript on the parsed JSON object: the value for the key,
or a KeyError.  The parsed object is modelled as an association list. -/
def getItem (d : List (String × String)) (k : String) : Except PyErr String :=
  match d.lookup k with
  | some v => .ok v
  | none => .error (.keyError k)

/-- Key of slide number i in the parsed mapping. -/
def slideKey (i : Nat) : String := "slide" ++ toString i

/-- Flowables appended by one pass of the loop body for slide i
(source lines 170 to 178). -/
def slideFlowables (i : Nat) (text : String) : List Flowable :=
  [ .image brand_image_path (3.5 * inch) (0.8 * inch),
    .spacer 1 (0.3 * inch),
    .paragraph text bodyStyle,
    .spacer 1 (0.5 * inch) ]
  ++ (if i < 6 then [.spacer 1 (1 * inch), .paragraph "<br/><br/>" bodyStyle] else [])

/-- The story built by the loop over the given slide numbers, or the
KeyError raised by the first missing key. -/
def buildStory (slides : List (String × String)) : List Nat → Except PyErr (List Flowable)
  | [] => .ok []
  | i :: rest =>
      match getItem slides (slideKey i) with
      | .error e => .error e
      | .ok text =>
          match buildStory slides rest with
          | .error e => .error e
          | .ok tail => .ok (slideFlowables i text ++ tail)

/-- Model of create_carousel_pdf (source lines 149 to 181).  The function
creates a named temporary file with suffix .pdf, builds the story of
flowables for slides 1 to 6, lets ReportLab write the document into that
file, and returns tmp_file.name: the path of the temporary file, a string.
The path is chosen by the operating system, so it is a parameter here; the
bytes ReportLab writes to disk belong to the library and are outside the
model.  On success the result holds the story together with the returned
path. -/
def create_carousel_pdf (tmpName : String) (slides : List (String × String)) :
    Except PyErr (List Flowable × String) :=
  match buildStory slides [1, 2, 3, 4, 5, 6] with
  | .error e => .error e
  | .ok story => .ok (story, tmpName)

/-- Message shown by st.error when a mandatory field is empty
(source line 191). -/
def validation_message : String := "Please enter the role title and paste the JD."

/-- File name passed to st.download_button (source line 212): a string
literal, not an expression involving the role title. -/
def download_file_name : String := "nexgen_job_carousel.pdf"

/-- MIME type passed to st.download_button (source line 213). -/
def download_mime : String := "application/pdf"

/-- The literal arguments the script passes to st.download_button
(source lines 209 to 214): label, file name, MIME type. -/
def download_button_args : String × String × String :=
  ("📥 Download 6-Slide Carousel PDF", download_file_name, download_mime)

/-- Result of one run of the script body guarded by the generate button
(source lines 188 to 217).  The script contains no try and no except, so
any exception raised below the button branch terminates the run unhandled;
such a run is the uncaught outcome.  An empty role title or an empty JD is
reported through st.error followed by st.stop. -/
inductive Outcome where
  | noop
  | validationError (msg : String)
  | uncaught (e : PyErr)
  | success (linkedin_post : String) (file_name : String) (mime : String) (pdf_path : String)
deriving Repr, DecidableEq

/-- Model of the main action (source lines 188 to 217): validation, the
generate_job_post call, display of the linkedin_post entry, the PDF build,
and the download button.  Python falsiness of a string is emptiness.  The
second component counts completion-service requests. -/
def mainAction (generate_btn : Bool) (country role_title client_context jd_input : String)
    (call : String → String → Except PyErr (List (String × String)))
    (tmpName : String) : Outcome × Nat :=
  if generate_btn then
    if role_title = "" ∨ jd_input = "" then
      (.validationError validation_message, 0)
    else
      match generate_job_post country role_title client_context jd_input call with
      | (.error e, n) => (.uncaught e, n)
      | (.ok result, n) =>
          match getItem result "linkedin_post" with
          | .error e => (.uncaught e, n)
          | .ok post =>
              match create_carousel_pdf tmpName result with
              | .error e => (.uncaught e, n)
              | .ok (_story, path) => (.success post download_file_name download_mime path, n)
  else (.noop, 0)

/-- Whether the first list is a prefix of the second, by direct recursion. -/
def isPrefixL : List Char → List Char → Bool
  | [], _ => true
  | _ :: _, [] => false
  | a :: as, b :: bs => a == b && isPrefixL as bs

/-- Whether the first list occurs contiguously inside the second. -/
def containsL (p : List Char) : List Char → Bool
  | [] => p.isEmpty
  | b :: bs => isPrefixL p (b :: bs) || containsL p bs

/-- Substring test on strings. -/
def substrS (p s : String) : Bool := containsL p.data s.data

/-- Prefix test on strings. -/
def startsWithS (p s : String) : Bool := isPrefixL p.data s.data

/-- A completion stub that succeeds with an empty parsed object. -/
def stubCallOk : String → String → Except PyErr (List (String × String)) :=
  fun _ _ => .ok []

/-- A completion stub that raises, standing for a remote-call failure. -/
def stubCallFail : String → String → Except PyErr (List (String × String)) :=
  fun _ _ => .error (.valueError "boom")

/-- A parsed mapping holding all six slide keys, for the renderer claims. -/
def completeSlides : List (String × String) :=
  [ ("linkedin_post", "The post"), ("slide1", "S1"), ("slide2", "S2"),
    ("slide3", "S3"), ("slide4", "S4"), ("slide5", "S5"), ("slide6", "S6") ]

/-- A parsed mapping missing the key slide4. -/
def missingSlide4 : List (String × String) :=
  [ ("linkedin_post", "The post"), ("slide1", "S1"), ("slide2", "S2"),
    ("slide3", "S3"), ("slide5", "S5"), ("slide6", "S6") ]

/-- A mapping with a linkedin_post entry and an extra key, agreeing with
noExtraSlides on the six slide keys. -/
def extraSlides : List (String × String) :=
  [ ("linkedin_post", "A long LinkedIn post"), ("slide1", "T1"), ("slide2", "T2"),
    ("slide3", "T3"), ("slide4", "T4"), ("slide5", "T5"), ("slide6", "T6"),
    ("extra_key", "ignored") ]

/-- A mapping holding only the six slide keys, agreeing with extraSlides
on them. -/
def noExtraSlides : List (String × String) :=
  [ ("slide1", "T1"), ("slide2", "T2"), ("slide3", "T3"),
    ("slide4", "T4"), ("slide5", "T5"), ("slide6", "T6") ]

/-! ### General lemmas about the helper functions -/

theorem data_append (s t : String) : (s ++ t).data = s.data ++ t.data := rfl

theorem string_append_empty (s : String) : s ++ "" = s := by
  cases s with
  | mk l => exact congrArg String.mk (List.append_nil l)

theorem isPrefixL_self_append (p t : List Char) : isPrefixL p (p ++ t) = true := by
  induction p with
  | nil => rfl
  | cons a as ih => simp [isPrefixL, List.cons_append, ih]

theorem containsL_of_here (p t : List Char) : containsL p (p ++ t) = true := by
  cases p with
  | nil =>
      cases t with
      | nil => rfl
      | cons b bs =>
          simp only [List.nil_append, containsL, Bool.or_eq_true]
          exact Or.inl rfl
  | cons a as =>
      simp only [List.cons_append, containsL, Bool.or_eq_true]
      exact Or.inl (isPrefixL_self_append (a :: as) t)

theorem containsL_cons (p l : List Char) (c : Char) (h : containsL p l = true) :
    containsL p (c :: l) = true := by
  simp [containsL, h]

theorem containsL_append_right (p a l : List Char) (h : containsL p l = true) :
    containsL p (a ++ l) = true := by
  induction a with
  | nil => simpa using h
  | cons c cs ih => simpa [List.cons_append] using containsL_cons p (cs ++ l) c ih

theorem isPrefixL_before_newline (p : List Char) (hnl : ('\n' : Char) ∉ p) :
    ∀ m l : List Char, isPrefixL p (m ++ '\n' :: l) = true → isPrefixL p m = true := by
  induction p with
  | nil => intro m l _; rfl
  | cons q qs ih =>
      intro m l h
      cases m with
      | nil =>
          exfalso
          simp only [List.nil_append, isPrefixL, Bool.and_eq_true, beq_iff_eq] at h
          exact hnl (h.1 ▸ List.mem_cons_self q qs)
      | cons d m' =>
          simp only [List.cons_append, isPrefixL, Bool.and_eq_true, beq_iff_eq] at h ⊢
          exact ⟨h.1, ih (fun hm => hnl (List.mem_cons_of_mem q hm)) m' l h.2⟩

theorem containsL_split_newline (p : List Char) (hnl : ('\n' : Char) ∉ p)
    (hne : p ≠ []) :
    ∀ a l : List Char, containsL p (a ++ '\n' :: l) = true →
      containsL p a = true ∨ containsL p l = true := by
  intro a
  induction a with
  | nil =>
      intro l h
      cases p with
      | nil => exact absurd rfl hne
      | cons q qs =>
          simp only [List.nil_append, containsL, Bool.or_eq_true] at h
          cases h with
          | inl hpre =>
              exfalso
              simp only [isPrefixL, Bool.and_eq_true, beq_iff_eq] at hpre
              exact hnl (hpre.1 ▸ List.mem_cons_self q qs)
          | inr hrest => exact Or.inr hrest
  | cons c cs ih =>
      intro l h
      simp only [List.cons_append, containsL, Bool.or_eq_true] at h
      cases h with
      | inl hpre =>
          left
          have hp : isPrefixL p (c :: cs) = true :=
            isPrefixL_before_newline p hnl (c :: cs) l (by simpa [List.cons_append] using hpre)
          cases p with
          | nil => exact absurd rfl hne
          | cons q qs => simp [containsL, hp]
      | inr hrest =>
          cases ih l hrest with
          | inl h1 => exact Or.inl (containsL_cons p cs c h1)
          | inr h2 => exact Or.inr h2

/-- If a pattern holding no newline occurs in a text of the shape
a, newline, m, newline, b, and occurs neither in a nor in b, then it
occurs in the middle part m. -/
theorem containsL_mid (p m a b : List Char)
    (hnl : ('\n' : Char) ∉ p) (hne : p ≠ [])
    (ha : containsL p a = false) (hb : containsL p b = false)
    (h : containsL p ((a ++ ['\n']) ++ (m ++ ('\n' :: b))) = true) :
    containsL p m = true := by
  have h' : containsL p (a ++ '\n' :: (m ++ '\n' :: b)) = true := by
    simpa [List.append_assoc] using h
  cases containsL_split_newline p hnl hne a (m ++ '\n' :: b) h' with
  | inl h1 => rw [ha] at h1; cases h1
  | inr h2 =>
      cases containsL_split_newline p hnl hne m b h2 with
      | inl h3 => exact h3
      | inr h4 => rw [hb] at h4; cases h4

/-! ### Lemmas about the prompt builders -/

theorem pyStrFormat_empty (v : String) : pyStrFormat v "" = .ok v := rfl

theorem jsonTemplateSpec_ne_empty : jsonTemplateSpec ≠ "" := by decide

theorem validStrFormatSpec_jsonTemplateSpec : validStrFormatSpec jsonTemplateSpec = false := by
  decide

theorem pyStrFormat_jsonTemplateSpec (v : String) :
    pyStrFormat v jsonTemplateSpec = .error (.valueError "Invalid format specifier") := by
  simp [pyStrFormat, jsonTemplateSpec_ne_empty, validStrFormatSpec_jsonTemplateSpec]

/-- Evaluating the system-prompt f-string raises ValueError on every input:
the JSON-template replacement field carries an invalid format spec. -/
theorem system_prompt_of_eq_error (c r cc : String) :
    system_prompt_of c r cc = .error (.valueError "Invalid format specifier") := by
  simp [system_prompt_of, system_prompt_segs, fstringEval, pyStrFormat_empty,
    pyStrFormat_jsonTemplateSpec, Except.map]

/-- The user-prompt f-string always succeeds and wraps the JD between the
two literal segments. -/
theorem user_prompt_of_eq (jd : String) :
    user_prompt_of jd = .ok (userLit1 ++ (jd ++ userLit2)) := by
  simp [user_prompt_of, user_prompt_segs, fstringEval, pyStrFormat_empty,
    Except.map, string_append_empty]

/-- generate_job_post raises the f-string ValueError on every input, before
any completion-service request is issued. -/
theorem generate_job_post_eq_error (c r cc jd : String)
    (call : String → String → Except PyErr (List (String × String))) :
    generate_job_post c r cc jd call = (.error (.valueError "Invalid format specifier"), 0) := by
  simp [generate_job_post, system_prompt_of_eq_error]

/-! ### Lemmas about the carousel renderer -/

theorem buildStory_ok (slides : List (String × String)) (L : List Nat)
    (h : ∀ j ∈ L, (slides.lookup (slideKey j)).isSome = true) :
    ∃ story, buildStory slides L = .ok story := by
  induction L with
  | nil => exact ⟨[], rfl⟩
  | cons i rest ih =>
      have hi := h i (List.mem_cons_self i rest)
      rcases Option.isSome_iff_exists.mp hi with ⟨v, hv⟩
      rcases ih (fun j hj => h j (List.mem_cons_of_mem i hj)) with ⟨tail, htail⟩
      exact ⟨slideFlowables i v ++ tail, by simp [buildStory, getItem, hv, htail]⟩

theorem buildStory_error_of_missing (slides : List (String × String)) (L : List Nat)
    (h : ∃ j ∈ L, slides.lookup (slideKey j) = none) :
    ∃ k ∈ L, slides.lookup (slideKey k) = none ∧
      buildStory slides L = .error (.keyError (slideKey k)) := by
  induction L with
  | nil =>
      rcases h with ⟨j, hj, _⟩
      cases hj
  | cons i rest ih =>
      cases hlook : slides.lookup (slideKey i) with
      | none =>
          exact ⟨i, List.mem_cons_self i rest, hlook, by simp [buildStory, getItem, hlook]⟩
      | some v =>
          have h' : ∃ j ∈ rest, slides.lookup (slideKey j) = none := by
            rcases h with ⟨j, hj, hnone⟩
            cases List.mem_cons.mp hj with
            | inl he =>
                subst he
                rw [hlook] at hnone
                cases hnone
            | inr hr => exact ⟨j, hr, hnone⟩
          rcases ih h' with ⟨k, hk, hnone, herr⟩
          exact ⟨k, List.mem_cons_of_mem i hk, hnone,
            by simp [buildStory, getItem, hlook, herr]⟩

theorem buildStory_congr (s t : List (String × String)) (L : List Nat)
    (h : ∀ j ∈ L, s.lookup (slideKey j) = t.lookup (slideKey j)) :
    buildStory s L = buildStory t L := by
  induction L with
  | nil => rfl
  | cons i rest ih =>
      have hi := h i (List.mem_cons_self i rest)
      have ih' := ih (fun j hj => h j (List.mem_cons_of_mem i hj))
      simp [buildStory, getItem, hi, ih']

/-! ### Claims about the carousel renderer -/

/-- Claim C3 counterexample: for a complete slide mapping and a concrete
temp-file path, create_carousel_pdf returns that path string, not an
in-memory byte buffer; the returned value does not begin with the PDF
signature, refuting the claim that the renderer returns a non-empty byte
buffer starting with the signature. -/
theorem c3_counterexample :
    (create_carousel_pdf "/tmp/tmpw3c1q9.pdf" completeSlides).map Prod.snd
      = .ok "/tmp/tmpw3c1q9.pdf"
    ∧ startsWithS "%PDF" "/tmp/tmpw3c1q9.pdf" = false := by
  exact ⟨rfl, rfl⟩

/-- Claim C3 amended: for every slide mapping holding the six keys slide1
to slide6, create_carousel_pdf succeeds and returns the path of the
temporary pdf file it was given by the operating system (the shell later
reopens that path to read the bytes); the in-memory value handed back is
the path string, and the byte content on disk belongs to the PDF library. -/
theorem c3_amended_returns_tmp_path (tmp : String) (slides : List (String × String))
    (h : ∀ j ∈ [1, 2, 3, 4, 5, 6], (slides.lookup (slideKey j)).isSome = true) :
    ∃ story, create_carousel_pdf tmp slides = .ok (story, tmp) := by
  rcases buildStory_ok slides _ h with ⟨story, hs⟩
  exact ⟨story, by simp [create_carousel_pdf, hs]⟩

/-- Claim C3 witness: the amended statement applied to a complete concrete
mapping and a concrete temp path. -/
theorem c3_witness :
    ∃ story, create_carousel_pdf "/tmp/tmpw3c1q9.pdf" completeSlides
      = .ok (story, "/tmp/tmpw3c1q9.pdf") :=
  c3_amended_returns_tmp_path "/tmp/tmpw3c1q9.pdf" completeSlides (by decide)

/-- Claim C4: for every slide mapping missing at least one of the six keys
slide1 to slide6, create_carousel_pdf fails with a KeyError naming a
missing slide key, rather than silently producing a PDF with the slide
omitted. -/
theorem c4_missing_key_raises_keyerror (tmp : String) (slides : List (String × String))
    (h : ∃ j ∈ [1, 2, 3, 4, 5, 6], slides.lookup (slideKey j) = none) :
    ∃ k ∈ [1, 2, 3, 4, 5, 6], slides.lookup (slideKey k) = none ∧
      create_carousel_pdf tmp slides = .error (.keyError (slideKey k)) := by
  rcases buildStory_error_of_missing slides _ h with ⟨k, hk, hnone, herr⟩
  exact ⟨k, hk, hnone, by simp [create_carousel_pdf, herr]⟩

/-- Claim C4 witness: the theorem applied to a concrete mapping missing
slide4. -/
theorem c4_witness :
    ∃ k ∈ [1, 2, 3, 4, 5, 6], missingSlide4.lookup (slideKey k) = none ∧
      create_carousel_pdf "/tmp/tmpw3c1q9.pdf" missingSlide4
        = .error (.keyError (slideKey k)) :=
  c4_missing_key_raises_keyerror "/tmp/tmpw3c1q9.pdf" missingSlide4 ⟨4, by decide, by decide⟩

/-- Claim C10: two slide mappings agreeing on the six keys slide1 to slide6
make create_carousel_pdf build the same document content; the
linkedin_post entry and any extra keys never affect the rendered story. -/
theorem c10_story_depends_only_on_slides (tmp : String) (s t : List (String × String))
    (h : ∀ j ∈ [1, 2, 3, 4, 5, 6], s.lookup (slideKey j) = t.lookup (slideKey j)) :
    create_carousel_pdf tmp s = create_carousel_pdf tmp t := by
  simp [create_carousel_pdf, buildStory_congr s t _ h]

/-- Claim C10 witness: a mapping with a linkedin_post entry and an extra
key renders the same story as one holding only the six slide keys. -/
theorem c10_witness :
    create_carousel_pdf "/tmp/tmpc10.pdf" extraSlides
      = create_carousel_pdf "/tmp/tmpc10.pdf" noExtraSlides :=
  c10_story_depends_only_on_slides "/tmp/tmpc10.pdf" extraSlides noExtraSlides (by decide)

/-! ### Claims about the shell -/

/-- Claim C5: a submission with an empty role title field or an empty JD
text field is reported through the validation message, and the completion
service is never invoked: the request count is zero. -/
theorem c5_empty_fields_validation_zero_calls
    (country role_title client_context jd : String)
    (call : String → String → Except PyErr (List (String × String))) (tmp : String)
    (h : role_title = "" ∨ jd = "") :
    mainAction true country role_title client_context jd call tmp
      = (.validationError validation_message, 0) := by
  simp only [mainAction, if_pos h, if_true]

/-- Claim C5 witness: the theorem applied to an empty role title. -/
theorem c5_witness :
    mainAction true "India" "" "some client" "Paste of the JD" stubCallOk "/tmp/tmpc5.pdf"
      = (.validationError validation_message, 0) :=
  c5_empty_fields_validation_zero_calls "India" "" "some client" "Paste of the JD"
    stubCallOk "/tmp/tmpc5.pdf" (Or.inl rfl)

/-! ### Claims about the prompts -/

/-- Claim C1 counterexample: with role title Backend Engineer and JD text
hello, the user-role prompt expression of generate_job_post evaluates to a
string that wraps only the JD; it does not contain the role title.  The
program has no location, experience or skills inputs at all, so those
values cannot appear either. -/
theorem c1_counterexample :
    user_prompt_of "hello"
      = .ok "\nHere is the JD to rewrite and enhance:\n\nhello\n\nGenerate LinkedIn post + 6 slides now.\n"
    ∧ substrS "Backend Engineer"
        "\nHere is the JD to rewrite and enhance:\n\nhello\n\nGenerate LinkedIn post + 6 slides now.\n"
      = false :=
  ⟨rfl, rfl⟩

/-- Claim C1 amended: for every JD text, the user prompt evaluates to the
two fixed literal segments around the JD and therefore contains the JD text
verbatim as a substring; the role title is referenced only by the
system-prompt template, and location, experience and skills are not inputs
of this program. -/
theorem c1_amended_user_prompt_contains_jd (jd : String) :
    ∃ up, user_prompt_of jd = .ok up ∧ substrS jd up = true := by
  refine ⟨userLit1 ++ (jd ++ userLit2), user_prompt_of_eq jd, ?_⟩
  show containsL jd.data (userLit1 ++ (jd ++ userLit2)).data = true
  rw [data_append, data_append]
  exact containsL_append_right jd.data userLit1.data (jd.data ++ userLit2.data)
    (containsL_of_here jd.data userLit2.data)

/-- Claim C2 counterexample: on a submitted request with nonempty fields,
the run terminates with an uncaught ValueError: no exception is caught at
the presentation boundary and no generic error message is produced, because
the script contains no try and no except.  The completion stub that would
raise is never even reached, so a completion-service exception can never be
caught either: the request count is zero. -/
theorem c2_counterexample :
    mainAction true "India" "Senior Engineer" "" "Paste of the JD" stubCallFail "/tmp/tmpc2.pdf"
      = (.uncaught (.valueError "Invalid format specifier"), 0) := rfl

/-- Claim C2 amended: the script catches no exception anywhere: every
submission with a nonempty role title and a nonempty JD ends with an
uncaught ValueError raised while the system prompt is built, before the
completion-service call, and zero completion-service requests are issued.
Any exception below the button branch would propagate unhandled. -/
theorem c2_amended_no_handler_uncaught (country role_title client_context jd : String)
    (call : String → String → Except PyErr (List (String × String))) (tmp : String)
    (hr : role_title ≠ "") (hjd : jd ≠ "") :
    mainAction true country role_title client_context jd call tmp
      = (.uncaught (.valueError "Invalid format specifier"), 0) := by
  simp [mainAction, hr, hjd, generate_job_post_eq_error]

/-- Claim C2 witness: the amended statement applied to concrete nonempty
fields and the succeeding completion stub. -/
theorem c2_witness :
    mainAction true "Japan" "Senior Engineer" "" "Paste of the JD" stubCallOk "/tmp/tmpc2b.pdf"
      = (.uncaught (.valueError "Invalid format specifier"), 0) :=
  c2_amended_no_handler_uncaught "Japan" "Senior Engineer" "" "Paste of the JD"
    stubCallOk "/tmp/tmpc2b.pdf" (by decide) (by decide)

/-- Claim C6 counterexample: the file name handed to st.download_button is
the fixed literal nexgen_job_carousel.pdf; for the concrete role title
Backend Engineer, neither the raw title, nor an underscored form, nor
either of its words occurs in the served file name, so the name is not
derived from a sanitized version of the role title.  The final conjunct
records the MIME half of the claim, which does hold. -/
theorem c6_counterexample :
    download_file_name = "nexgen_job_carousel.pdf"
    ∧ substrS "Backend Engineer" download_file_name = false
    ∧ substrS "Backend_Engineer" download_file_name = false
    ∧ substrS "Backend" download_file_name = false
    ∧ substrS "Engineer" download_file_name = false
    ∧ download_mime = "application/pdf" :=
  ⟨rfl, rfl, rfl, rfl, rfl, rfl⟩

/-- Claim C6 amended: the download is always served under the constant file
name nexgen_job_carousel.pdf, independent of the role title, with MIME type
application/pdf. -/
theorem c6_amended_constant_name_and_mime :
    download_button_args
      = ("📥 Download 6-Slide Carousel PDF", "nexgen_job_carousel.pdf", "application/pdf") := rfl

/-- Claim C7 (code bug): the prompt-construction step never yields the
prompt strings: at the failing input below, as at every input, evaluating
the system-prompt f-string raises ValueError, because the braces of the
JSON template are parsed as a replacement field whose format spec is
invalid.  The spec calls this step pure string formatting with no error
conditions, so two evaluations should deterministically yield identical
strings; the code instead deterministically raises. -/
theorem c7_prompt_build_raises_valueerror :
    generate_job_post "India" "Senior Full Stack Engineer – Java + React"
      "working with a global automotive leader" "Our JD text" stubCallOk
      = (.error (.valueError "Invalid format specifier"), 0) := rfl

/-- Claim C8 counterexample: at a concrete input, building the system
prompt yields no string at all: evaluation raises ValueError.  In
particular the prompt does not contain a dict repr with single-quoted keys,
contrary to the claim; the braces are parsed as a replacement field, whose
expression is the string literal linkedin_post, followed by an invalid
format spec, not as a dict display. -/
theorem c8_counterexample :
    system_prompt_of "India" "Data Engineer" "ctx"
      = .error (.valueError "Invalid format specifier") := rfl

/-- Claim C8 amended: for every input the system prompt indeed never
contains the double-quoted JSON template as written in the source, but not
because a dict repr is interpolated: the braces form one replacement field
with an invalid format spec, so the f-string evaluation raises ValueError
and no system-prompt string is produced at all. -/
theorem c8_amended_system_prompt_always_errors (country role_title client_context : String) :
    system_prompt_of country role_title client_context
      = .error (.valueError "Invalid format specifier") :=
  system_prompt_of_eq_error country role_title client_context

/-- If the why_join message occurs in the evaluated user prompt, it occurs
in the JD input itself: the message contains no newline, while the fixed
literal segments around the JD end and begin with newlines and do not
contain the message. -/
theorem why_join_user_prompt_only_via_jd (country jd : String)
    (h : substrS (why_join country) (userLit1 ++ (jd ++ userLit2)) = true) :
    substrS (why_join country) jd = true := by
  have e1 : userLit1.data = ("\nHere is the JD to rewrite and enhance:\n").data ++ ['\n'] := by
    decide
  have e2 : userLit2.data = '\n' :: ("\nGenerate LinkedIn post + 6 slides now.\n").data := by
    decide
  simp only [substrS] at h ⊢
  rw [data_append, data_append, e1, e2] at h
  by_cases hc : country = "India"
  · rw [hc] at h ⊢
    exact containsL_mid (why_join "India").data jd.data
      (("\nHere is the JD to rewrite and enhance:\n").data)
      (("\nGenerate LinkedIn post + 6 slides now.\n").data)
      (by decide) (by decide) (by decide) (by decide) h
  · have hwj : why_join country
        = "Opportunity to work with major Japanese enterprises, including global leaders in manufacturing and consumer services (without naming clients)." := by
      simp [why_join, hc]
    rw [hwj] at h ⊢
    exact containsL_mid _ jd.data
      (("\nHere is the JD to rewrite and enhance:\n").data)
      (("\nGenerate LinkedIn post + 6 slides now.\n").data)
      (by decide) (by decide) (by decide) (by decide) h

/-- Claim C9 counterexample: the why_join message can appear in the user
prompt, namely when the JD input itself contains it: with jd equal to the
India message, the evaluated user prompt contains the message as a
substring, refuting the claim as universally stated. -/
theorem c9_counterexample :
    user_prompt_of (why_join "India")
      = .ok (userLit1 ++ (why_join "India" ++ userLit2))
    ∧ substrS (why_join "India") (userLit1 ++ (why_join "India" ++ userLit2)) = true :=
  ⟨user_prompt_of_eq (why_join "India"), by decide⟩

/-- Claim C9 amended: the why_join message computed at the start of
generate_job_post never reaches the completion request: the function
raises ValueError while building the system prompt and issues zero
completion-service requests, so no prompt is ever sent; and whenever the
JD input does not itself contain the message, the evaluated user-prompt
expression does not contain it either, since no template interpolates
why_join. -/
theorem c9_amended_why_join_never_sent (country role_title client_context jd : String)
    (call : String → String → Except PyErr (List (String × String)))
    (h : substrS (why_join country) jd = false) :
    generate_job_post country role_title client_context jd call
      = (.error (.valueError "Invalid format specifier"), 0)
    ∧ substrS (why_join country) (userLit1 ++ (jd ++ userLit2)) = false := by
  refine ⟨generate_job_post_eq_error country role_title client_context jd call, ?_⟩
  cases hb : substrS (why_join country) (userLit1 ++ (jd ++ userLit2)) with
  | false => rfl
  | true =>
      have hjd := why_join_user_prompt_only_via_jd country jd hb
      rw [h] at hjd
      cases hjd

/-- Claim C9 witness: the amended statement applied to a concrete JD that
does not contain the why_join message. -/
theorem c9_witness :
    generate_job_post "India" "Senior Engineer" "ctx" "A fresh JD" stubCallOk
      = (.error (.valueError "Invalid format specifier"), 0)
    ∧ substrS (why_join "India") (userLit1 ++ ("A fresh JD" ++ userLit2)) = false :=
  c9_amended_why_join_never_sent "India" "Senior Engineer" "ctx" "A fresh JD"
    stubCallOk (by decide)

end NexGen
